import Mathlib

/-!
Shallow embedding of `apps/web/src/app/_components/features/ProductCatalog.tsx`
(the storefront product-catalog component) together with theorems checking the
natural-language specification against it.

Modelling conventions:
* JavaScript numbers that carry prices are embedded as exact rationals (`ℚ`);
  scroll coordinates are embedded as integers (`ℤ`).
* Optional TypeScript fields (`hidden?: boolean`, `stock?: number`, …) are
  embedded as `Option`.
* `product.nftMetadata` may arrive either as a serialized string or as a
  structured value; it is embedded as `Option (String ⊕ NftMetadata)`.
  `JSON.parse`-with-cast is abstracted as a parameter
  `parse : String → Option NftMetadata` (`none` = the parse threw).
* Truthiness of a JavaScript string (`metadata?.imageUrl ? … : …`) is expanded
  to "present and non-empty".
* Event handlers are embedded as pure functions from the state they read to
  the effects they cause (state written, callbacks invoked, requests issued).
-/

namespace ProductCatalog

/-- Structured NFT-style metadata attached to a product (`NftMetadata` in
`types.ts`): image reference, origin region, farm name, strength category. -/
structure NftMetadata where
  imageUrl : Option String
  region : Option String
  farmName : Option String
  strength : Option String
deriving Repr, DecidableEq

/-- A catalog product as the component receives it. -/
structure Product where
  id : ℕ
  name : String
  price : ℚ
  stock : Option ℕ
  hidden : Option Bool
  nftMetadata : Option (String ⊕ NftMetadata)
  process : Option String
deriving Repr, DecidableEq

/-- `const MARKET_FEE_BPS = 5000; // 50%` -/
def MARKET_FEE_BPS : ℚ := 5000

/-- `calculateTotalPrice`: `const fee = (price * MARKET_FEE_BPS) / 10000;
return price + fee;` -/
def calculateTotalPrice (price : ℚ) : ℚ :=
  let fee := price * MARKET_FEE_BPS / 10000
  price + fee

/-- The shared search state: the four atoms `searchQueryAtom`,
`quantityOfProducts`, `searchResultsAtom`, `isLoadingAtom`. -/
structure SearchState where
  query : String
  quantity : ℕ
  results : List Product
  isLoading : Bool
deriving Repr, DecidableEq

/-- `clearSearch`: `setQuantityProducts(0); setSearchResults([]);
setIsLoading(false); setQuery("");` — the new shared search state after the
four setters have run on the previous state `s`. -/
def clearSearch (s : SearchState) : SearchState :=
  { s with quantity := 0, results := [], isLoading := false, query := "" }

/-- One page of the paginated product response. -/
structure ProductPage where
  products : List Product
  nextCursor : Option ℕ
deriving Repr, DecidableEq

/-- The per-product normalization applied while accumulating pages:
`{ ...product, process: "Natural", stock: product.stock ?? 0 }`. -/
def normalizeProduct (product : Product) : Product :=
  { product with process := some "Natural", stock := some (product.stock.getD 0) }

/-- The page-accumulation effect (lines 62–76): `data.pages.flatMap(page =>
page.products.filter(p => p.hidden !== true).map(normalize))`. -/
def accumulateProducts (pages : List ProductPage) : List Product :=
  pages.flatMap fun page =>
    (page.products.filter fun product => product.hidden != some true).map
      normalizeProduct

/-- The metadata-normalization step of `renderProduct` (lines 102–112):
a string field is `JSON.parse`d in a `try`/`catch` that yields `null` on
failure; a structured field is used unchanged; absence stays `null`.
The opaque behaviour of `JSON.parse`-and-cast is the parameter `parse`. -/
def parseOrCast (parse : String → Option NftMetadata)
    (nftMetadata : Option (String ⊕ NftMetadata)) : Option NftMetadata :=
  match nftMetadata with
  | some (Sum.inl s) => parse s
  | some (Sum.inr m) => some m
  | none => none

/-- JavaScript's `s.startsWith(pre)`, evaluated on the underlying character
sequence of the strings. -/
def strStartsWith (s pre : String) : Bool :=
  pre.data.isPrefixOf s.data

/-- The default fallback asset used when no usable image metadata exists. -/
def fallbackImage : String := "/images/cafe1.webp"

/-- The `imageUrl` resolution (lines 114–118): `metadata?.imageUrl ?
(metadata.imageUrl.startsWith("Qm") ? gatewayUrl + "/ipfs/" + it : it)
: "/images/cafe1.webp"`, with string truthiness made explicit. -/
def resolveImageUrl (gatewayUrl : String) (metadata : Option NftMetadata) :
    String :=
  match metadata.bind NftMetadata.imageUrl with
  | some url =>
      if url = "" then fallbackImage
      else if strStartsWith url "Qm" then gatewayUrl ++ "/ipfs/" ++ url
      else url
  | none => fallbackImage

/-- The props handed to a rendered `ProductCard` (lines 145–160). -/
structure Card where
  image : String
  region : String
  farmName : String
  variety : String
  price : ℚ
  stock : Option ℕ
  badgeText : String
  isConnected : Bool
  isAddingToShoppingCart : Bool
deriving Repr, DecidableEq

/-- `addingToCart === product.id` (line 158). -/
def isAddingToShoppingCart (addingToCart : Option ℕ) (productId : ℕ) : Bool :=
  addingToCart == some productId

/-- `renderProduct` (lines 97–161): `null` for a hidden product, otherwise a
card with the derived image, region, farm name, translated variety, fee-added
price, stock and adding marker. `t` is the translation lookup, `parse` the
metadata parser, `gatewayUrl` the configured gateway base. -/
def renderProduct (t : String → String) (parse : String → Option NftMetadata)
    (gatewayUrl : String) (isConnected : Bool) (addingToCart : Option ℕ)
    (product : Product) : Option Card :=
  if product.hidden == some true then none
  else
    let metadata := parseOrCast parse product.nftMetadata
    some
      { image := resolveImageUrl gatewayUrl metadata
        region := (metadata.bind NftMetadata.region).getD ""
        farmName := (metadata.bind NftMetadata.farmName).getD ""
        variety := t product.name
        price := calculateTotalPrice product.price
        stock := product.stock
        badgeText :=
          t ("strength." ++
            ((metadata.bind NftMetadata.strength).map String.toLower).getD
              "undefined")
        isConnected := isConnected
        isAddingToShoppingCart := isAddingToShoppingCart addingToCart product.id }

/-- The client-side filter applied to the shared search results before they
are rendered (lines 203–204): `results.filter(p => p.hidden !== true)`. -/
def filterSearchResults (results : List Product) : List Product :=
  results.filter fun product => product.hidden != some true

/-- The immediate effects of one `handleAddToCart` click (lines 120–141). -/
structure AddToCartOutcome where
  connectInvoked : Bool
  mutationIssued : Option (ℕ × ℕ)
  addingToCart : Option ℕ
deriving Repr, DecidableEq

/-- `handleAddToCart` (lines 120–141): when not connected and a connect
callback was supplied, invoke it and return; otherwise set the adding marker
to the product id and issue `addToCart({ productId, quantity: 1 })`. -/
def handleAddToCart (isConnected hasOnConnect : Bool)
    (addingToCart : Option ℕ) (productId : ℕ) : AddToCartOutcome :=
  if !isConnected && hasOnConnect then
    { connectInvoked := true, mutationIssued := none,
      addingToCart := addingToCart }
  else
    { connectInvoked := false, mutationIssued := some (productId, 1),
      addingToCart := some productId }

/-- The success path of the cart-add mutation (lines 41–43 and 133–135): the
per-call `onSuccess` sets the adding marker to `null` and the mutation-level
`onSuccess` triggers `refetchCart`. Result: (new marker, refetch issued). -/
def onAddToCartSuccess (_addingToCart : Option ℕ) : Option ℕ × Bool :=
  (none, true)

/-- The error path of the cart-add mutation (lines 136–138): `onError` sets
the adding marker to `null`; no refetch is issued. -/
def onAddToCartError (_addingToCart : Option ℕ) : Option ℕ × Bool :=
  (none, false)

/-- `handleScroll` (lines 78–86), as the decision whether `fetchNextPage()` is
invoked: requires `window.innerHeight + window.scrollY >=
document.body.offsetHeight - 100`, no fetch in flight, and a next page. -/
def handleScroll (innerHeight scrollY offsetHeight : ℤ)
    (isFetchingNextPage hasNextPage : Bool) : Bool :=
  decide (innerHeight + scrollY ≥ offsetHeight - 100) &&
    !isFetchingNextPage && hasNextPage

/-- The state read by the component's render expression (lines 170–267):
local `products` and `addingToCart`, the shared search atoms, and the
infinite-query flags. `initialFetchActive` records whether the initial page
fetch is still running (the query's loading status, which the component
never destructures). -/
structure CatalogState where
  products : List Product
  results : List Product
  isLoadingResults : Bool
  quantity : ℕ
  query : String
  addingToCart : Option ℕ
  isFetchingNextPage : Bool
  hasNextPage : Bool
  initialFetchActive : Bool
deriving Repr, DecidableEq

/-- The four top-level shapes the render expression can produce: the skeleton
grid, the search-results grid (with its localized count header), the
no-results panel, and the paginated catalog grid. -/
inductive CatalogView where
  | skeletons : CatalogView
  | searchResults (quantity : ℕ) (entries : List (Option Card)) : CatalogView
  | noResults : CatalogView
  | catalogGrid (entries : List (Option Card)) : CatalogView
deriving Repr, DecidableEq

/-- The render expression (lines 170–267): `isLoadingResults ? skeletons :
results.length > 0 ? searchResults : query ? noResults : catalogGrid`.
Search results are client-side filtered for hidden items and re-normalized
(`stock: product.stock ?? 0`) before `renderProduct`. The trailing
`isFetchingNextPage` skeleton row is an addition below these shapes and is
not modelled here. -/
def renderCatalog (t : String → String) (pr : String → Option NftMetadata)
    (gatewayUrl : String) (isConnected : Bool) (s : CatalogState) :
    CatalogView :=
  if s.isLoadingResults then CatalogView.skeletons
  else if 0 < s.results.length then
    CatalogView.searchResults s.quantity
      ((filterSearchResults s.results).map fun product =>
        renderProduct t pr gatewayUrl isConnected s.addingToCart
          { product with stock := some (product.stock.getD 0) })
  else if s.query ≠ "" then CatalogView.noResults
  else
    CatalogView.catalogGrid
      (s.products.map
        (renderProduct t pr gatewayUrl isConnected s.addingToCart))

/-- The product cards a view actually shows (`null` entries render nothing).
-/
def viewCards : CatalogView → List Card
  | CatalogView.skeletons => []
  | CatalogView.searchResults _ entries => entries.reduceOption
  | CatalogView.noResults => []
  | CatalogView.catalogGrid entries => entries.reduceOption

end ProductCatalog

namespace ProductCatalog

/-- C1: `calculateTotalPrice` returns the base price plus a fee of 50% of the
base price: for every price `p`, the displayed total is `p + p * (1/2)`;
in particular price 10 yields total 15. -/
theorem calculateTotalPrice_is_price_plus_half (p : ℚ) :
    calculateTotalPrice p = p + p * (1 / 2) := by
  unfold calculateTotalPrice MARKET_FEE_BPS
  ring

/-- C2: from any shared search state, `clearSearch` results in
query = "", result count = 0, results = [] and loading = false
simultaneously, and establishes no other value for those four atoms. -/
theorem clearSearch_resets_all_four (s : SearchState) :
    clearSearch s =
      { query := "", quantity := 0, results := [], isLoading := false } := by
  rfl

/-- C3: a product with `hidden = true` is produced by no render path: the
page accumulation excludes it, the search-results filter excludes it, and
`renderProduct` returns `null` on it. -/
theorem hidden_product_never_rendered (p : Product)
    (h : p.hidden = some true) :
    (∀ pages : List ProductPage, p ∉ accumulateProducts pages) ∧
    (∀ results : List Product, p ∉ filterSearchResults results) ∧
    (∀ (t : String → String) (pr : String → Option NftMetadata) (g : String)
      (c : Bool) (a : Option ℕ),
      renderProduct t pr g c a p = none) := by
  refine ⟨?_, ?_, ?_⟩
  · intro pages hmem
    simp only [accumulateProducts, List.mem_flatMap, List.mem_map,
      List.mem_filter] at hmem
    obtain ⟨page, -, q, ⟨-, hq⟩, hnorm⟩ := hmem
    have : p.hidden = q.hidden := by
      rw [← hnorm]; rfl
    rw [h] at this
    rw [← this] at hq
    simp at hq
  · intro results hmem
    simp only [filterSearchResults, List.mem_filter] at hmem
    rw [h] at hmem
    simp at hmem
  · intro t pr g c a
    simp [renderProduct, h]

/-- A sample hidden product used to instantiate theorems. -/
def sampleHiddenProduct : Product :=
  { id := 7, name := "q", price := 10, stock := none, hidden := some true,
    nftMetadata := none, process := none }

/-- A sample page containing only the hidden product. -/
def sampleHiddenPage : ProductPage :=
  { products := [sampleHiddenProduct], nextCursor := none }

/-- C3 witness: a concrete hidden product is absent from a concrete page
accumulation and yields no card. -/
theorem hidden_product_never_rendered_witness :
    sampleHiddenProduct ∉ accumulateProducts [sampleHiddenPage] ∧
    renderProduct (fun s => s) (fun _ => none) "gw" false none
      sampleHiddenProduct = none :=
  ⟨(hidden_product_never_rendered _ rfl).1 _,
   (hidden_product_never_rendered _ rfl).2.2 (fun s => s) (fun _ => none)
     "gw" false none⟩

/-- C4: the resolved display image is a three-way case split on the metadata
image value: a string starting with "Qm" is rewritten to
`gatewayUrl ++ "/ipfs/" ++ value`; any other non-empty string is used
unchanged; absent image metadata falls back to "/images/cafe1.webp". -/
theorem resolveImageUrl_three_way (gatewayUrl : String) (m : NftMetadata)
    (s : String) :
    (m.imageUrl = some s → strStartsWith s "Qm" = true →
      resolveImageUrl gatewayUrl (some m) = gatewayUrl ++ "/ipfs/" ++ s) ∧
    (m.imageUrl = some s → s ≠ "" → strStartsWith s "Qm" = false →
      resolveImageUrl gatewayUrl (some m) = s) ∧
    (resolveImageUrl gatewayUrl none = "/images/cafe1.webp") ∧
    (m.imageUrl = none →
      resolveImageUrl gatewayUrl (some m) = "/images/cafe1.webp") := by
  refine ⟨?_, ?_, ?_, ?_⟩
  · intro h1 h2
    have hs : s ≠ "" := by
      intro he
      rw [he] at h2
      exact absurd h2 (by decide)
    simp [resolveImageUrl, h1, hs, h2]
  · intro h1 hs h2
    simp [resolveImageUrl, h1, hs, h2]
  · rfl
  · intro h1
    simp [resolveImageUrl, h1, fallbackImage]

/-- Sample metadata with a content-identifier-style image value. -/
def sampleCidMetadata : NftMetadata :=
  { imageUrl := some "QmAbc", region := none, farmName := none,
    strength := none }

/-- Sample metadata with a plain URL image value. -/
def sampleUrlMetadata : NftMetadata :=
  { imageUrl := some "https://x/y.png", region := none, farmName := none,
    strength := none }

/-- Sample metadata with no image value. -/
def sampleNoImageMetadata : NftMetadata :=
  { imageUrl := none, region := none, farmName := none, strength := none }

/-- C4 witness: concrete evaluations of the three cases. -/
theorem resolveImageUrl_three_way_witness :
    resolveImageUrl "https://gw" (some sampleCidMetadata) =
        "https://gw/ipfs/QmAbc" ∧
    resolveImageUrl "https://gw" (some sampleUrlMetadata) =
        "https://x/y.png" ∧
    resolveImageUrl "https://gw" (some sampleNoImageMetadata) =
        "/images/cafe1.webp" :=
  ⟨(resolveImageUrl_three_way "https://gw" sampleCidMetadata "QmAbc").1 rfl
     (by decide),
   (resolveImageUrl_three_way "https://gw" sampleUrlMetadata
       "https://x/y.png").2.1 rfl (by decide) (by decide),
   (resolveImageUrl_three_way "https://gw" sampleNoImageMetadata "").2.2.2
     rfl⟩

/-- C5: `handleScroll` invokes `fetchNextPage` exactly when the viewport is
within 100 pixels of the document bottom, no page fetch is in flight, and a
next page exists; in particular while a fetch is pending it never starts a
second request. -/
theorem handleScroll_fires_iff_guard (innerHeight scrollY offsetHeight : ℤ)
    (isFetchingNextPage hasNextPage : Bool) :
    handleScroll innerHeight scrollY offsetHeight isFetchingNextPage
        hasNextPage = true ↔
      (innerHeight + scrollY ≥ offsetHeight - 100 ∧
        isFetchingNextPage = false ∧ hasNextPage = true) := by
  cases isFetchingNextPage <;> cases hasNextPage <;>
    simp [handleScroll]

/-- C6: clicking add-to-cart while disconnected with a connect callback
supplied invokes the callback, issues no mutation and leaves the adding
marker untouched; in every other case the mutation is issued (with
quantity 1) and the callback is not invoked. -/
theorem handleAddToCart_connect_gating (isConnected hasOnConnect : Bool)
    (m : Option ℕ) (pid : ℕ) :
    (isConnected = false → hasOnConnect = true →
      (handleAddToCart isConnected hasOnConnect m pid).connectInvoked = true ∧
      (handleAddToCart isConnected hasOnConnect m pid).mutationIssued = none ∧
      (handleAddToCart isConnected hasOnConnect m pid).addingToCart = m) ∧
    (isConnected = true ∨ hasOnConnect = false →
      (handleAddToCart isConnected hasOnConnect m pid).connectInvoked =
        false ∧
      (handleAddToCart isConnected hasOnConnect m pid).mutationIssued =
        some (pid, 1)) := by
  cases isConnected <;> cases hasOnConnect <;>
    simp [handleAddToCart]

/-- C6 witness: concrete evaluations of the gated and the connected case. -/
theorem handleAddToCart_connect_gating_witness :
    (handleAddToCart false true (some 3) 5).mutationIssued = none ∧
    (handleAddToCart true true none 5).mutationIssued = some (5, 1) :=
  ⟨((handleAddToCart_connect_gating false true (some 3) 5).1 rfl rfl).2.1,
   ((handleAddToCart_connect_gating true true none 5).2 (Or.inl rfl)).2⟩

/-- C7: both completion paths of the cart-add mutation clear the adding
marker, and the cart refetch is triggered on success only. -/
theorem addToCart_completion_clears_marker (m : Option ℕ) :
    (onAddToCartSuccess m).1 = none ∧ (onAddToCartSuccess m).2 = true ∧
    (onAddToCartError m).1 = none ∧ (onAddToCartError m).2 = false :=
  ⟨rfl, rfl, rfl, rfl⟩

/-- C8: a metadata string the parser rejects behaves exactly like absent
metadata: the parsed value is `none`, the rendered card coincides with the
one for the same product without metadata, and (when the product is shown at
all) region and farm name default to `""` and the image to the fallback. -/
theorem malformed_metadata_defaults (t : String → String)
    (pr : String → Option NftMetadata) (g : String) (c : Bool)
    (a : Option ℕ) (p : Product) (s : String) (hparse : pr s = none)
    (hp : p.nftMetadata = some (Sum.inl s)) :
    parseOrCast pr p.nftMetadata = none ∧
    renderProduct t pr g c a p =
      renderProduct t pr g c a { p with nftMetadata := none } ∧
    (p.hidden ≠ some true →
      ∃ card, renderProduct t pr g c a p = some card ∧
        card.region = "" ∧ card.farmName = "" ∧
        card.image = "/images/cafe1.webp") := by
  have hm : parseOrCast pr p.nftMetadata = none := by
    rw [hp]
    simpa [parseOrCast] using hparse
  refine ⟨hm, ?_, ?_⟩
  · simp [renderProduct, parseOrCast, hp, hparse]
  · intro hh
    have hb : (p.hidden == some true) = false := by
      simpa using hh
    simp only [renderProduct, hb, Bool.false_eq_true, if_false, hm]
    exact ⟨_, rfl, rfl, rfl, rfl⟩

/-- A sample product carrying a malformed serialized metadata string. -/
def sampleMalformedProduct : Product :=
  { id := 3, name := "p", price := 4, stock := some 2, hidden := none,
    nftMetadata := some (Sum.inl "not-json"), process := none }

/-- C8 witness: the malformed-metadata product evaluated concretely. -/
theorem malformed_metadata_defaults_witness :
    parseOrCast (fun _ => none) sampleMalformedProduct.nftMetadata = none ∧
    renderProduct (fun s => s) (fun _ => none) "gw" false none
        sampleMalformedProduct =
      renderProduct (fun s => s) (fun _ => none) "gw" false none
        { sampleMalformedProduct with nftMetadata := none } :=
  ⟨(malformed_metadata_defaults (fun s => s) (fun _ => none) "gw" false none
      sampleMalformedProduct "not-json" rfl rfl).1,
   (malformed_metadata_defaults (fun s => s) (fun _ => none) "gw" false none
      sampleMalformedProduct "not-json" rfl rfl).2.1⟩

/-- A catalog state in which the initial page fetch is still running while
the shared search loading flag is unset. -/
def initialFetchState : CatalogState :=
  { products := [], results := [], isLoadingResults := false, quantity := 0,
    query := "", addingToCart := none, isFetchingNextPage := false,
    hasNextPage := true, initialFetchActive := true }

/-- C9 counterexample: while the initial page fetch is active but the shared
loading flag is unset, the render produces the (empty) catalog grid, not the
skeleton placeholders — the claim's "initial page fetch is active" trigger
does not exist in the code. -/
theorem skeletons_missing_during_initial_fetch :
    initialFetchState.initialFetchActive = true ∧
    renderCatalog (fun s => s) (fun _ => none) "gw" false
        initialFetchState = CatalogView.catalogGrid [] ∧
    renderCatalog (fun s => s) (fun _ => none) "gw" false
        initialFetchState ≠ CatalogView.skeletons := by
  exact ⟨rfl, by decide, by decide⟩

/-- C9 (amended): whenever the shared search loading flag is set, skeleton
placeholders are rendered and no product card is rendered; moreover the
render is insensitive to the initial-page-fetch status in every state. -/
theorem skeletons_driven_by_loading_flag (t : String → String)
    (pr : String → Option NftMetadata) (g : String) (c : Bool)
    (s : CatalogState) (h : s.isLoadingResults = true) :
    renderCatalog t pr g c s = CatalogView.skeletons ∧
    viewCards (renderCatalog t pr g c s) = [] ∧
    (∀ (s' : CatalogState) (b : Bool),
      renderCatalog t pr g c { s' with initialFetchActive := b } =
        renderCatalog t pr g c s') := by
  refine ⟨?_, ?_, ?_⟩
  · simp [renderCatalog, h]
  · simp [renderCatalog, h, viewCards]
  · intro s' b
    rfl

/-- A catalog state with the shared search loading flag set. -/
def searchLoadingState : CatalogState :=
  { products := [], results := [], isLoadingResults := true, quantity := 0,
    query := "q", addingToCart := none, isFetchingNextPage := false,
    hasNextPage := false, initialFetchActive := false }

/-- C9 witness: the loading state evaluated concretely. -/
theorem skeletons_driven_by_loading_flag_witness :
    renderCatalog (fun s => s) (fun _ => none) "gw" false
      searchLoadingState = CatalogView.skeletons :=
  (skeletons_driven_by_loading_flag (fun s => s) (fun _ => none) "gw" false
    searchLoadingState rfl).1

/-- C10: the adding marker is a single slot, so at most one product reports
as adding at any time; starting add-to-cart for a second product while the
first is still marked overwrites the slot, and the first product no longer
reports as adding. -/
theorem addingToCart_single_slot (hc : Bool) (a b : ℕ) (hne : a ≠ b) :
    (∀ (m : Option ℕ) (c d : ℕ), isAddingToShoppingCart m c = true →
      isAddingToShoppingCart m d = true → c = d) ∧
    isAddingToShoppingCart (some a) a = true ∧
    (handleAddToCart true hc (some a) b).addingToCart = some b ∧
    isAddingToShoppingCart
      (handleAddToCart true hc (some a) b).addingToCart b = true ∧
    isAddingToShoppingCart
      (handleAddToCart true hc (some a) b).addingToCart a = false := by
  refine ⟨?_, ?_, ?_, ?_, ?_⟩
  · intro m c d hcm hdm
    simp [isAddingToShoppingCart] at hcm hdm
    rw [hcm] at hdm
    exact Option.some_inj.mp hdm
  · simp [isAddingToShoppingCart]
  · simp [handleAddToCart]
  · simp [handleAddToCart, isAddingToShoppingCart]
  · simp [handleAddToCart, isAddingToShoppingCart]
    exact fun he => absurd he.symm hne

/-- C10 witness: with product 1 marked, starting add for product 2 leaves
product 1 no longer reported as adding. -/
theorem addingToCart_single_slot_witness :
    isAddingToShoppingCart
      (handleAddToCart true false (some 1) 2).addingToCart 1 = false :=
  (addingToCart_single_slot false 1 2 (by decide)).2.2.2.2

end ProductCatalog
